import Mathlib

/-!
# Verification of the dockling document-processing service

Shallow embedding of the request-scoped conversion orchestration layer of the
dockling repository (`app/services/conversion_service.py`,
`app/services/file_service.py`, `app/routers/document.py`, `app/main.py`,
`config/base.py`) together with proofs about the behaviour its specification
describes.

Modelling conventions:
* Python floats (wall-clock times) are modelled as rationals `ℚ`.
* The external docling engine and chunkers are opaque: their behaviour enters
  as parameters (`engine`, `chunkerOut`, `contextualize`, `countTokens`), and a
  raised exception is represented by an explicit error value.
* Python exceptions escaping a function are modelled with `Except`; code that
  catches all exceptions is modelled as a total function.
* Python dict payloads carried in `ApiResponse.data` are modelled by the
  `Value` inductive; `dict[key]` access is a lookup that raises `KeyError`
  (an `Except.error`) when the key is absent.
-/

namespace Dockling

/-! ## Character-list models of the Python string primitives

Lean's built-in `String` operations (`splitOn`, `toLower`, …) are defined over
byte positions and do not reduce inside the kernel, so the Python string
primitives the code uses are modelled structurally over `String.data`
character lists. -/

/-- Python `str.split(sep)` for a one-character separator, over characters. -/
def splitOnChar (sep : Char) : List Char → List (List Char)
  | [] => [[]]
  | c :: cs =>
    match splitOnChar sep cs with
    | [] => [[]]
    | w :: ws => if c = sep then [] :: w :: ws else (c :: w) :: ws

/-- Python `str.strip()`: remove leading and trailing whitespace. -/
def stripList (cs : List Char) : List Char :=
  ((cs.dropWhile Char.isWhitespace).reverse.dropWhile Char.isWhitespace).reverse

/-- Python `str.lower()` on the ASCII range (the only range the claims use). -/
def asciiLowerChar (c : Char) : Char :=
  if 'A' ≤ c ∧ c ≤ 'Z' then Char.ofNat (c.toNat + 32) else c

/-- Python `str.lower()` lifted to strings. -/
def asciiLower (s : String) : String :=
  ⟨s.data.map asciiLowerChar⟩

/-- Python `s.endswith(suffix)` over characters. -/
def endsWithList (suffix cs : List Char) : Bool :=
  cs.reverse.take suffix.length == suffix.reverse

/-- Python `s.startswith(pre)` over characters. -/
def startsWithList (pre cs : List Char) : Bool :=
  cs.take pre.length == pre

/-- Python `s[:-2]` over characters. -/
def dropLast2 (cs : List Char) : List Char :=
  cs.take (cs.length - 2)

/-- `OutputType` enum from `app/models.py`. -/
inductive OutputType where
  | plaintext
  | markdown
  | html
  | chunking
deriving DecidableEq, Repr

/-- `ChunkType` enum from `app/models.py`. -/
inductive ChunkType where
  | hierarchical
  | hybrid
  | page
deriving DecidableEq, Repr

/-- `BaseConfig.DEFAULT_OCR_LANGS` from `config/base.py` (same value in the
dev/test profiles). -/
def DEFAULT_OCR_LANGS : String := "id"

/-- `[lang.strip() for lang in settings.DEFAULT_OCR_LANGS.split(',')]` from
`create_document_converter` in `app/services/conversion_service.py`. -/
def defaultOcrLangs : List String :=
  (splitOnChar ',' DEFAULT_OCR_LANGS.data).map (fun w => String.mk (stripList w))

/-- The docling `DocumentConverter` as configured by this code base.
`configured` is the converter built by `create_document_converter` (OCR flag,
OCR language list, accelerator thread budget); `default` is the bare
`DocumentConverter()` built by the fallback branch of `initialize_converter`.
-/
inductive Converter where
  | configured (enable_ocr : Bool) (ocr_langs : List String) (num_threads : Nat)
  | default
deriving DecidableEq, Repr

/-- `create_document_converter(enable_ocr=False, ocr_langs=None, num_threads=6)`
from `app/services/conversion_service.py`: when `ocr_langs is None` the
default-language setting is parsed; the pipeline is built from the arguments.
Construction itself is pure record building here; call sites that must model a
construction failure do so with an explicit success flag. -/
def create_document_converter (enable_ocr : Bool := false)
    (ocr_langs : Option (List String) := none) (num_threads : Nat := 6) :
    Converter :=
  Converter.configured enable_ocr (ocr_langs.getD defaultOcrLangs) num_threads

/-- Mutable state of a `ConversionService` instance: the `self.converter`
field, `None` right after `__init__`. -/
structure ConvState where
  converter : Option Converter
deriving DecidableEq, Repr

/-- `ConversionService.initialize_converter` from
`app/services/conversion_service.py`.  `initOk` tells whether the first
construction attempt (with the requested options) raises, `fallbackOk` whether
the bare `DocumentConverter()` fallback raises.  All exceptions are caught, so
the function is total: it returns the updated state and the boolean result.
When a construction raises, `self.converter` keeps its previous value. -/
def initialize_converter (s : ConvState) (enable_ocr : Bool)
    (ocr_langs : Option (List String)) (initOk fallbackOk : Bool) :
    ConvState × Bool :=
  if initOk then
    ({ converter := some (create_document_converter enable_ocr ocr_langs) }, true)
  else if fallbackOk then
    ({ converter := some Converter.default }, true)
  else
    (s, false)

/-- Documents produced by the engine (`DoclingDocument`): the page collection
(absent when the document class does not expose a `pages` attribute) and the
three export renderings used by `_convert_document_sync`. -/
structure Doc where
  pages : Option (List Unit)
  exportText : String
  exportHtml : String
  exportMarkdown : String
deriving DecidableEq, Repr

/-- Outcome of `self.converter.convert(source)`: a parsed document, or a
raised engine exception carrying its message. -/
inductive EngineResult where
  | ok (document : Doc)
  | exn (msg : String)
deriving DecidableEq, Repr

/-- The `metadata` dict built by `_convert_document_sync`. -/
structure Metadata where
  page_count : Option Nat
  file_type : String
deriving DecidableEq, Repr

/-- `str(source).split('.')[-1]`: the text after the last `'.'` of the stored
path (the whole string when it has no dot). -/
def pyLastDotComponent (s : String) : String :=
  ⟨(splitOnChar '.' s.data).getLastD []⟩

/-- Result dict of `_convert_document_sync`: the success dict carries content,
rounded processing time, metadata and the parsed document; the failure dict
carries the error message and the (unrounded) processing time. -/
inductive SyncOutcome where
  | ok (content : String) (processing_time : ℚ) (metadata : Metadata) (document : Doc)
  | fail (error : String) (processing_time : ℚ)
deriving DecidableEq, Repr

/-- The metadata of a successful sync outcome, if any. -/
def SyncOutcome.metadata? : SyncOutcome → Option Metadata
  | .ok _ _ md _ => some md
  | .fail _ _ => none

/-- The processing time recorded in a sync outcome. -/
def SyncOutcome.processingTime : SyncOutcome → ℚ
  | .ok _ pt _ _ => pt
  | .fail _ pt => pt

/-- Python's `round(x, 2)` on our rational model of floats: round-half-to-even
at two decimal places. -/
def roundHalfEven (q : ℚ) : ℤ :=
  let f := ⌊q⌋
  let r := q - f
  if r < 1 / 2 then f
  else if 1 / 2 < r then f + 1
  else if Even f then f else f + 1

/-- `round(processing_time, 2)` from `_convert_document_sync`. -/
def pyRound2 (q : ℚ) : ℚ :=
  (roundHalfEven (q * 100) : ℚ) / 100

/-- A rational with at most two decimal places (what "rounded to two decimal
places" asserts of a reported value). -/
def twoDecimal (q : ℚ) : Prop :=
  ∃ n : ℤ, q * 100 = (n : ℚ)

/-- `ConversionService._convert_document_sync` from
`app/services/conversion_service.py`.  `constructOk` tells whether the lazy
`create_document_converter()` construction (attempted only when
`self.converter` is `None`) succeeds; `engine` is the behaviour of
`self.converter.convert`; `start`/`finish` are the wall-clock readings.  The
body catches every exception and returns a failure dict, so the model is a
total function from state to (new state, outcome). -/
def _convert_document_sync (converter : Option Converter) (source : String)
    (output_type : OutputType) (constructOk : Bool)
    (engine : Converter → String → EngineResult) (start finish : ℚ) :
    Option Converter × SyncOutcome :=
  match converter, constructOk with
  | none, false =>
      (none, .fail "converter construction failed" (finish - start))
  | none, true =>
      _convert_document_sync_run (create_document_converter) source output_type engine start finish
  | some c, _ =>
      _convert_document_sync_run c source output_type engine start finish
where
  /-- The body after the converter exists: run the engine, select the export
  path by `output_type`, build the metadata dict. -/
  _convert_document_sync_run (c : Converter) (source : String)
      (output_type : OutputType) (engine : Converter → String → EngineResult)
      (start finish : ℚ) : Option Converter × SyncOutcome :=
    match engine c source with
    | .exn msg => (some c, .fail msg (finish - start))
    | .ok d =>
        let content :=
          match output_type with
          | .plaintext => d.exportText
          | .html => d.exportHtml
          | _ => d.exportMarkdown
        let metadata : Metadata :=
          { page_count := d.pages.map List.length
            file_type := pyLastDotComponent source }
        (some c, .ok content (pyRound2 (finish - start)) metadata d)

/-- Events applied to a single `ConversionService` instance over its lifetime:
an `initialize_converter` call (with the outcome of its two construction
attempts) or a conversion request reaching `_convert_document_sync` (with the
outcome of its lazy construction and of the engine call). -/
inductive SvcEvent where
  | init (enable_ocr : Bool) (ocr_langs : Option (List String)) (initOk fallbackOk : Bool)
  | convertReq (source : String) (output_type : OutputType) (constructOk : Bool)
      (engine : Converter → String → EngineResult) (start finish : ℚ)

/-- State transition of the service under one event. -/
def svcStep (s : ConvState) (e : SvcEvent) : ConvState :=
  match e with
  | .init eo ol i f => (initialize_converter s eo ol i f).1
  | .convertReq src ot cOk eng t0 t1 =>
      { converter := (_convert_document_sync s.converter src ot cOk eng t0 t1).1 }

/-- Run a trace of events from a given service state. -/
def svcRun (s : ConvState) (tr : List SvcEvent) : ConvState :=
  tr.foldl svcStep s

/-- Fresh service state: `ConversionService.__init__` sets `self.converter = None`. -/
def initialSvcState : ConvState := { converter := none }

/-- Whether an event's construction attempt(s) succeed: an `init` succeeds when
either the requested or the fallback construction succeeds; a conversion
request's lazy construction succeeds when `constructOk` holds (it is only
attempted when no converter exists yet). -/
def constructionSucceeds : SvcEvent → Bool
  | .init _ _ i f => i || f
  | .convertReq _ _ cOk _ _ _ => cOk

/-- `health_check` from `app/main.py`:
`"healthy" if conversion_service and conversion_service.converter else "unhealthy"`,
over the global service (absent before startup wiring). -/
def health_check (svc : Option ConvState) : String :=
  match svc with
  | some s => if s.converter.isSome then "healthy" else "unhealthy"
  | none => "unhealthy"

lemma svcStep_isSome_mono (s : ConvState) (e : SvcEvent)
    (h : s.converter.isSome) : (svcStep s e).converter.isSome := by
  rcases e with ⟨eo, ol, i, f⟩ | ⟨src, ot, cOk, eng, t0, t1⟩
  · simp only [svcStep, initialize_converter]
    split
    · simp
    · split
      · simp
      · exact h
  · rcases hs : s.converter with _ | c
    · rw [hs] at h; simp at h
    · simp only [svcStep, hs, _convert_document_sync, _convert_document_sync._convert_document_sync_run]
      rcases eng c src with d | m <;> simp

lemma svcStep_isSome_of_none (s : ConvState) (e : SvcEvent)
    (h : s.converter = none) :
    (svcStep s e).converter.isSome = constructionSucceeds e := by
  rcases e with ⟨eo, ol, i, f⟩ | ⟨src, ot, cOk, eng, t0, t1⟩
  · simp only [svcStep, initialize_converter, constructionSucceeds]
    rcases i <;> rcases f <;> simp [h]
  · simp only [svcStep, constructionSucceeds, h]
    rcases cOk with _ | _
    · simp [_convert_document_sync]
    · simp only [_convert_document_sync, _convert_document_sync._convert_document_sync_run]
      rcases eng create_document_converter src with d | m <;> simp

lemma svcRun_isSome_mono (tr : List SvcEvent) (s : ConvState)
    (h : s.converter.isSome) : (svcRun s tr).converter.isSome := by
  induction tr generalizing s with
  | nil => exact h
  | cons e tr ih => exact ih _ (svcStep_isSome_mono s e h)

lemma svcRun_isSome_iff (tr : List SvcEvent) (s : ConvState)
    (h : s.converter = none) :
    (svcRun s tr).converter.isSome ↔ ∃ e ∈ tr, constructionSucceeds e = true := by
  induction tr generalizing s with
  | nil => simp [svcRun, h]
  | cons e tr ih =>
    simp only [svcRun, List.foldl_cons, List.mem_cons]
    rcases hc : constructionSucceeds e with _ | _
    · have hnone : (svcStep s e).converter = none := by
        have := svcStep_isSome_of_none s e h
        rw [hc] at this
        rcases hs : (svcStep s e).converter with _ | c
        · rfl
        · rw [hs] at this; simp at this
      rw [show tr.foldl svcStep (svcStep s e) = svcRun (svcStep s e) tr from rfl,
        ih _ hnone]
      constructor
      · rintro ⟨x, hx, hsx⟩; exact ⟨x, Or.inr hx, hsx⟩
      · rintro ⟨x, hx | hx, hsx⟩
        · rw [hx, hc] at hsx; exact absurd hsx (by simp)
        · exact ⟨x, hx, hsx⟩
    · have hsome : (svcStep s e).converter.isSome := by
        rw [svcStep_isSome_of_none s e h, hc]
      constructor
      · intro _; exact ⟨e, Or.inl rfl, hc⟩
      · intro _; exact svcRun_isSome_mono tr _ hsome

/-- C6: `initialize_converter` never raises (it is a total function of the
construction outcomes) and returns a boolean; it reports failure exactly when
both the requested-options construction and the single fallback construction
fail; when the requested construction fails and the fallback succeeds the
installed engine is the minimal default `DocumentConverter()`; when the
requested construction succeeds the installed engine carries the requested
options; on total failure the state is left unchanged. -/
theorem initialize_converter_contract (s : ConvState) (enable_ocr : Bool)
    (ocr_langs : Option (List String)) (initOk fallbackOk : Bool) :
    ((initialize_converter s enable_ocr ocr_langs initOk fallbackOk).2 = false ↔
      initOk = false ∧ fallbackOk = false)
    ∧ (initOk = false → fallbackOk = true →
        (initialize_converter s enable_ocr ocr_langs initOk fallbackOk).1.converter =
          some Converter.default)
    ∧ (initOk = true →
        (initialize_converter s enable_ocr ocr_langs initOk fallbackOk).1.converter =
          some (create_document_converter enable_ocr ocr_langs))
    ∧ (initOk = false → fallbackOk = false →
        initialize_converter s enable_ocr ocr_langs initOk fallbackOk = (s, false)) := by
  rcases initOk <;> rcases fallbackOk <;> simp [initialize_converter]

theorem initialize_converter_contract_witness :
    (((initialize_converter initialSvcState true none false true).2 = false ↔
      False = false ∧ True = false)
    ∧ (False = false → True = true →
        (initialize_converter initialSvcState true none false true).1.converter =
          some Converter.default)
    ∧ (False = true →
        (initialize_converter initialSvcState true none false true).1.converter =
          some (create_document_converter true none))
    ∧ (False = false → True = false →
        initialize_converter initialSvcState true none false true =
          (initialSvcState, false))) := by
  have h := initialize_converter_contract initialSvcState true none false true
  simpa using h

/-- C8: over every event trace applied to a freshly constructed service, the
health check answers `"healthy"` exactly when some event in the trace
successfully constructed an engine instance (a requested-options or fallback
initialization, or a lazy construction performed by a conversion request);
it answers `"unhealthy"` exactly when no construction ever succeeded, and the
answer is computed from whether an engine instance currently exists. -/
theorem health_check_iff_constructed (tr : List SvcEvent) :
    health_check (some (svcRun initialSvcState tr)) = "healthy" ↔
      ∃ e ∈ tr, constructionSucceeds e = true := by
  rw [← svcRun_isSome_iff tr initialSvcState rfl]
  rcases h : (svcRun initialSvcState tr).converter with _ | c
  · simp [health_check, h]
  · simp [health_check, h]

/-- C10: a conversion reaching `_convert_document_sync` while `self.converter`
is `None` does not fail for lack of an engine: it installs the
default-configured converter built by the zero-argument
`create_document_converter()` call — OCR disabled, the configured default OCR
languages, six accelerator threads, with any per-request OCR options ignored —
and then behaves exactly as a conversion on that installed converter. -/
theorem convert_sync_lazy_default (source : String) (output_type : OutputType)
    (engine : Converter → String → EngineResult) (start finish : ℚ) :
    ((_convert_document_sync none source output_type true engine start finish).1 =
        some create_document_converter)
    ∧ ((_convert_document_sync none source output_type true engine start finish).2 =
        (_convert_document_sync (some create_document_converter) source output_type true
          engine start finish).2)
    ∧ create_document_converter = Converter.configured false ["id"] 6 := by
  refine ⟨?_, rfl, by decide⟩
  simp only [_convert_document_sync, _convert_document_sync._convert_document_sync_run]
  rcases engine create_document_converter source with d | m <;> simp

/-! ## File service (`app/services/file_service.py`) -/

/-- `os.path.basename`: the part of the path after the last `/`. -/
def pyBasename (s : String) : String :=
  ⟨(s.data.reverse.takeWhile (fun c => c != '/')).reverse⟩

/-- Python's regex class `\w` for `str` patterns (Unicode mode): underscore
plus Unicode alphanumerics.  Modelled exactly on the Basic Latin and Latin-1
blocks (`c.val ≤ 0xFF`); beyond them Python's `\w` depends on the full Unicode
character database, which is not embedded, so this model answers `false` there
(it never *keeps* a character the source replaces), and every theorem that
quantifies over file names carries an explicit hypothesis restricting them to
these two blocks, on which this definition agrees with Python character for
character. -/
def pyWordChar (c : Char) : Bool :=
  if c.val < 0x80 then c.isAlphanum || c = '_'
  else if c.val ≤ 0xFF then
    c.val = 0xAA || c.val = 0xB5 || c.val = 0xBA ||
    (0xB2 ≤ c.val && c.val ≤ 0xB3) || c.val = 0xB9 ||
    (0xBC ≤ c.val && c.val ≤ 0xBE) ||
    (0xC0 ≤ c.val && c.val ≤ 0xFF && c.val != 0xD7 && c.val != 0xF7)
  else
    false

/-- Replacement performed on one character by `re.sub(r'[^\w\.-]', '_', name)`:
characters matching `[\w.-]` are kept, every other character becomes `_`. -/
def sanitizeChar (c : Char) : Char :=
  if pyWordChar c || c == '.' || c == '-' then c else '_'

/-- `re.sub(r'[^\w\.-]', '_', name)` from `FileService._get_safe_filename`. -/
def reSubNonWord (s : String) : String :=
  ⟨s.data.map sanitizeChar⟩

/-- `os.path.splitext` on a separator-free name, over characters: split at
the last dot unless every character before it is a dot (leading dots do not
begin an extension). -/
def splitextList (cs : List Char) : List Char × List Char :=
  match ((List.range cs.length).filter (fun i => cs.getD i ' ' == '.')).getLast? with
  | none => (cs, [])
  | some i =>
      if (cs.take i).all (fun c => c == '.') then (cs, [])
      else (cs.take i, cs.drop i)

/-- `os.path.splitext` lifted to strings. -/
def pySplitext (s : String) : String × String :=
  (⟨(splitextList s.data).1⟩, ⟨(splitextList s.data).2⟩)

/-- `datetime.now().strftime("%Y%m%d_%H%M%S")`: zero-padded second-resolution
timestamp. -/
def pad2 (n : Nat) : String :=
  if n < 10 then "0" ++ Nat.repr n else Nat.repr n

/-- Zero-padding to four digits, for `%Y`. -/
def pad4 (n : Nat) : String :=
  (if n < 10 then "000" else if n < 100 then "00" else if n < 1000 then "0" else "")
    ++ Nat.repr n

/-- The `strftime("%Y%m%d_%H%M%S")` format used by `_get_safe_filename`. -/
def strftimeTimestamp (y mo d h mi s : Nat) : String :=
  pad4 y ++ pad2 mo ++ pad2 d ++ "_" ++ pad2 h ++ pad2 mi ++ pad2 s

/-- `FileService._get_safe_filename` from `app/services/file_service.py`:
basename, unsafe-character replacement, then the timestamp spliced between
root and extension as `f"{name}_{timestamp}{ext}"`. -/
def _get_safe_filename (filename ts : String) : String :=
  let name := pyBasename filename
  let safe := reSubNonWord name
  let pr := pySplitext safe
  pr.1 ++ "_" ++ ts ++ pr.2

/-- The MIME acceptance test of `FileService.save_upload_file`:
`any(fmt.endswith('/*') and file_type.startswith(fmt[:-2]) or file_type == fmt
for fmt in self.supported_formats)`. -/
def isSupported (supported : List String) (file_type : String) : Bool :=
  supported.any (fun fmt =>
    (endsWithList "/*".data fmt.data && startsWithList (dropLast2 fmt.data) file_type.data)
      || file_type == fmt)

/-- Result of `save_upload_file`: a stored path, or a raised `HTTPException`. -/
inductive UploadResult where
  | saved (path : String)
  | httpError (code : Nat) (detail : String)
deriving DecidableEq, Repr

/-- `FileService.save_upload_file` from `app/services/file_service.py`:
`sniffed` is `magic.from_buffer(content, mime=True)` on the first 1024 bytes;
an unsupported type raises HTTP 400, otherwise the upload is stored under the
collision-safe name.  The decision uses only the sniffed type, never the
declared `filename`. -/
def save_upload_file (supported : List String) (uploadDir : String)
    (sniffed filename ts : String) : UploadResult :=
  if isSupported supported sniffed then
    .saved (uploadDir ++ "/" ++ _get_safe_filename filename ts)
  else
    .httpError 400 ("Unsupported file type: " ++ sniffed)

/-- The acceptance predicate exactly as claim C2 words it: an exact allow-list
match, or a wildcard family entry `X/*` with a sniffed type beginning with
`X/` (slash included). -/
def claimAccepts (supported : List String) (t : String) : Prop :=
  t ∈ supported ∨
    ∃ fmt ∈ supported, endsWithList "/*".data fmt.data = true ∧
      startsWithList (dropLast2 fmt.data ++ ['/']) t.data = true

instance (supported : List String) (t : String) :
    Decidable (claimAccepts supported t) := by
  unfold claimAccepts; infer_instance

lemma data_append (s t : String) : (s ++ t).data = s.data ++ t.data := by
  rcases s with ⟨a⟩; rcases t with ⟨b⟩; rfl

lemma isSupported_iff (supported : List String) (t : String) :
    isSupported supported t = true ↔
      t ∈ supported ∨
        ∃ fmt ∈ supported, endsWithList "/*".data fmt.data = true ∧
          startsWithList (dropLast2 fmt.data) t.data = true := by
  unfold isSupported
  rw [List.any_eq_true]
  constructor
  · rintro ⟨fmt, hmem, hp⟩
    rcases Bool.or_eq_true_iff.mp hp with hand | heq
    · rcases Bool.and_eq_true_iff.mp hand with ⟨h1, h2⟩
      exact Or.inr ⟨fmt, hmem, h1, h2⟩
    · exact Or.inl (by rwa [beq_iff_eq.mp heq])
  · rintro (ht | ⟨fmt, hmem, h1, h2⟩)
    · exact ⟨t, ht, by simp⟩
    · exact ⟨fmt, hmem, by simp [h1, h2]⟩

/-- C2 counterexample: with allow-list `["image/*"]` the code accepts the
sniffed type `"image"` (and likewise any `"imageXYZ"` type), because the
wildcard comparison tests `startswith("image")` — the entry minus `/*`,
without the slash; the claim's predicate demands a type of the family
`"image/…"`, i.e. beginning `"image/"`, and rejects it, so the claimed
"if and only if" is false. -/
theorem supported_wildcard_counterexample :
    isSupported ["image/*"] "image" = true ∧
      ¬ claimAccepts ["image/*"] "image" := by
  constructor
  · decide
  · decide

/-- C2 amended: an upload is accepted exactly when the sniffed type equals an
allow-list entry, or some entry ends in `/*` and the sniffed type starts with
that entry minus its last two characters — the family name *without* the
trailing slash; rejection is HTTP 400 naming the sniffed type.  The decision
never consults the declared filename (it is universally quantified and absent
from the right-hand side). -/
theorem save_upload_file_accepts_iff (supported : List String)
    (uploadDir sniffed filename ts : String) :
    ((∃ p, save_upload_file supported uploadDir sniffed filename ts = .saved p) ↔
      (sniffed ∈ supported ∨
        ∃ fmt ∈ supported, endsWithList "/*".data fmt.data = true ∧
          startsWithList (dropLast2 fmt.data) sniffed.data = true))
    ∧ ((save_upload_file supported uploadDir sniffed filename ts =
          .httpError 400 ("Unsupported file type: " ++ sniffed)) ↔
      ¬ (sniffed ∈ supported ∨
        ∃ fmt ∈ supported, endsWithList "/*".data fmt.data = true ∧
          startsWithList (dropLast2 fmt.data) sniffed.data = true)) := by
  rw [← isSupported_iff]
  unfold save_upload_file
  rcases h : isSupported supported sniffed with _ | _
  · simp [h]
  · simp [h]

lemma splitextList_subset (cs : List Char) :
    (splitextList cs).1 ⊆ cs ∧ (splitextList cs).2 ⊆ cs := by
  unfold splitextList
  split
  · exact ⟨fun _ hc => hc, by simp⟩
  · split
    · exact ⟨fun _ hc => hc, by simp⟩
    · exact ⟨List.take_subset _ _, List.drop_subset _ _⟩

lemma sanitizeChar_class (a : Char) :
    pyWordChar (sanitizeChar a) = true ∨ sanitizeChar a = '.' ∨ sanitizeChar a = '-' := by
  unfold sanitizeChar
  split
  · rename_i h
    rcases Bool.or_eq_true_iff.mp h with h1 | h2
    · rcases Bool.or_eq_true_iff.mp h1 with hw | hd
      · exact Or.inl hw
      · exact Or.inr (Or.inl (beq_iff_eq.mp hd))
    · exact Or.inr (Or.inr (beq_iff_eq.mp h2))
  · exact Or.inl (by decide)

lemma sanitizeChar_ne_slash (a : Char) : sanitizeChar a ≠ '/' := by
  unfold sanitizeChar
  split
  · rename_i h
    intro heq
    subst heq
    revert h
    decide
  · intro h
    exact absurd h (by decide)

lemma mem_safe_filename (filename ts : String) (c : Char)
    (hc : c ∈ (_get_safe_filename filename ts).data) :
    (∃ a, c = sanitizeChar a) ∨ c = '_' ∨ c ∈ ts.data := by
  simp only [_get_safe_filename] at hc
  rw [data_append, data_append, data_append] at hc
  have hfst : (splitextList (reSubNonWord (pyBasename filename)).data).1 ⊆
      (pyBasename filename).data.map sanitizeChar :=
    (splitextList_subset _).1
  have hsnd : (splitextList (reSubNonWord (pyBasename filename)).data).2 ⊆
      (pyBasename filename).data.map sanitizeChar :=
    (splitextList_subset _).2
  rcases List.mem_append.mp hc with h3 | hext
  · rcases List.mem_append.mp h3 with h2 | hts2
    · rcases List.mem_append.mp h2 with hroot | hu
      · rcases List.mem_map.mp (hfst hroot) with ⟨a, _, ha⟩
        exact Or.inl ⟨a, ha.symm⟩
      · rcases hu with _ | ⟨_, h⟩
        · exact Or.inr (Or.inl rfl)
        · exact absurd (by assumption : c ∈ ([] : List Char)) (by simp)
    · exact Or.inr (Or.inr hts2)
  · rcases List.mem_map.mp (hsnd hext) with ⟨a, _, ha⟩
    exact Or.inl ⟨a, ha.symm⟩

/-- C3 counterexample: the declared name `"café.txt"` keeps its `'é'` in the
stored name, because the replacement class is Python's Unicode `[^\w.-]`, in
which `'é'` is a word character; the claim's class `[A-Za-z0-9_.-]` excludes
`'é'` and demands it be replaced by `'_'`.  The first conjunct also exhibits
the second-resolution timestamp spliced between base name and extension. -/
theorem safe_filename_unicode_counterexample :
    _get_safe_filename "café.txt" (strftimeTimestamp 2025 1 1 12 0 0) =
      "café_20250101_120000.txt"
    ∧ 'é' ∈ (_get_safe_filename "café.txt" (strftimeTimestamp 2025 1 1 12 0 0)).data
    ∧ ¬ ('é'.isAlphanum = true ∨ 'é' = '_' ∨ 'é' = '.' ∨ 'é' = '-') := by
  refine ⟨by decide, by decide, by decide⟩

/-- C3 amended: for declared names and timestamps drawn from the Basic Latin
and Latin-1 blocks — the fragment on which `pyWordChar` matches Python's `\w`
exactly, and which contains the counterexample character `'é'` — the
stored-name generator strips any directory component (for a timestamp without
`/` the result contains no `/` at all, so no traversal component survives),
replaces every character outside Python's word-character class `\w` — which
extends `[A-Za-z0-9_]` with Unicode word characters such as `'é'` — and
outside `{., -}` with `'_'`, and splices the second-resolution timestamp
between the base name and the extension; hence every character of the stored
name is a word character, a dot, a hyphen, or comes from the timestamp. -/
theorem safe_filename_amended (filename ts : String)
    (_hfl : ∀ c ∈ filename.data, c.val ≤ 0xFF)
    (_htl : ∀ c ∈ ts.data, c.val ≤ 0xFF)
    (hts : '/' ∉ ts.data) :
    '/' ∉ (_get_safe_filename filename ts).data
    ∧ ∀ c ∈ (_get_safe_filename filename ts).data,
        pyWordChar c = true ∨ c = '.' ∨ c = '-' ∨ c ∈ ts.data := by
  constructor
  · intro hmem
    rcases mem_safe_filename filename ts '/' hmem with ⟨a, ha⟩ | h | h
    · exact sanitizeChar_ne_slash a ha.symm
    · exact absurd h (by decide)
    · exact hts h
  · intro c hc
    rcases mem_safe_filename filename ts c hc with ⟨a, ha⟩ | h | h
    · rcases sanitizeChar_class a with hw | hd | hh
      · exact Or.inl (by rw [ha]; exact hw)
      · exact Or.inr (Or.inl (by rw [ha]; exact hd))
      · exact Or.inr (Or.inr (Or.inl (by rw [ha]; exact hh)))
    · subst h
      exact Or.inl (by decide)
    · exact Or.inr (Or.inr (Or.inr h))

theorem safe_filename_amended_witness :
    '/' ∉ (_get_safe_filename "../../etc/passwd" "20250101_120000").data
    ∧ ∀ c ∈ (_get_safe_filename "../../etc/passwd" "20250101_120000").data,
        pyWordChar c = true ∨ c = '.' ∨ c = '-' ∨
          c ∈ ("20250101_120000" : String).data :=
  safe_filename_amended "../../etc/passwd" "20250101_120000"
    (by decide) (by decide) (by decide)

/-! ## Response envelopes and payloads

`ApiResponse` from `app/models.py` carries an arbitrary JSON-like `data`
payload; the Python dicts the services build are modelled by `Value`. -/

/-- JSON-like payload values (Python dicts/lists/scalars plus the engine
document handle carried by `_convert_document_sync`'s result dict). -/
inductive Value where
  | null
  | str (s : String)
  | int (n : Int)
  | rat (q : ℚ)
  | bool (b : Bool)
  | doc (d : Doc)
  | list (xs : List Value)
  | dict (entries : List (String × Value))

/-- `ApiResponse` from `app/models.py`: status (0 = success), optional
message, optional payload. -/
structure ApiResponse where
  status : Int
  message : Option String
  data : Option Value

/-- Python `dict[key]` lookup over insertion-ordered entries. -/
def dictLookup : List (String × Value) → String → Option Value
  | [], _ => none
  | (k, v) :: es, key => if key == k then some v else dictLookup es key

/-- Python `dict[key] = value`: overwrite in place when the key exists,
append otherwise. -/
def updateEntries (es : List (String × Value)) (k : String) (x : Value) :
    List (String × Value) :=
  if es.any (fun e => e.1 == k) then
    es.map (fun e => if e.1 == k then (k, x) else e)
  else
    es ++ [(k, x)]

/-- `dict[key] = value` on a payload value (only ever applied to dicts). -/
def dictSet (v : Value) (k : String) (x : Value) : Value :=
  match v with
  | .dict es => .dict (updateEntries es k x)
  | other => other

/-- Key lookup in a response's `data` payload. -/
def payloadLookup (r : ApiResponse) (k : String) : Option Value :=
  match r.data with
  | some (.dict es) => dictLookup es k
  | _ => none

/-- `response.data[key]`: a missing key raises `KeyError` (Python), modelled
as an `Except.error`. -/
def requireKey (r : ApiResponse) (k : String) : Except String Value :=
  match payloadLookup r k with
  | some v => .ok v
  | none => .error ("KeyError: " ++ k)

/-- The `metadata` dict as serialized into the response payload. -/
def metaValue (md : Metadata) : Value :=
  .dict [("page_count", match md.page_count with
            | some n => .int n
            | none => .null),
         ("file_type", .str md.file_type)]

/-- `ConversionService.convert` from `app/services/conversion_service.py`:
wraps `_convert_document_sync` into the uniform envelope.  On success the
`data` dict carries only `content`, `processing_time` and `metadata` — the
`document` entry of the sync result dict is *not* propagated.  On failure the
envelope is status 4 with the error message and no data.  (The lazy converter
construction is taken as succeeding here; an engine exception models every
sync failure.) -/
def convert (converter : Option Converter) (file_path : String)
    (output_type : OutputType) (engine : Converter → String → EngineResult)
    (start finish : ℚ) : Option Converter × ApiResponse :=
  match _convert_document_sync converter file_path output_type true engine start finish with
  | (c', .ok content pt md _d) =>
      (c', { status := 0, message := some "Document converted successfully",
             data := some (.dict [("content", .str content),
                                  ("processing_time", .rat pt),
                                  ("metadata", metaValue md)]) })
  | (c', .fail err _) =>
      (c', { status := 4, message := some err, data := none })

/-- A chunk record as built by `_chunk_sync`'s loop. -/
structure ChunkRec where
  chunk_id : Nat
  enriched_text : String
  token_count : Nat
  content : String
deriving DecidableEq, Repr

/-- The inner `_chunk_sync` of `ConversionService.chunk`: the selected
chunker's iterator output (or a raised exception anywhere in the try block —
tokenizer construction, chunker construction, iteration) enters as
`chunkerOut`; each produced chunk is enumerated, contextualized, and counted
(`token_count` is 0 for a falsy — empty — enriched text, mirroring Python
truthiness). -/
def _chunk_sync {α : Type} (document : Doc) (max_tokens : Nat)
    (chunk_type : ChunkType)
    (chunkerOut : ChunkType → Doc → Nat → Except String (List α))
    (contextualize : α → String) (countTokens : String → Nat) :
    Except String (List ChunkRec) :=
  match chunkerOut chunk_type document max_tokens with
  | .error e => .error e
  | .ok raws =>
      .ok (raws.enum.map (fun p =>
        let t := contextualize p.2
        { chunk_id := p.1
          enriched_text := t
          token_count := if t.data.isEmpty then 0 else countTokens t
          content := t }))

/-- A chunk record as serialized into the response payload. -/
def chunkValue (c : ChunkRec) : Value :=
  .dict [("chunk_id", .int c.chunk_id),
         ("enriched_text", .str c.enriched_text),
         ("token_count", .int c.token_count),
         ("content", .str c.content)]

/-- `ConversionService.chunk`: wraps `_chunk_sync` in the uniform envelope. -/
def chunk {α : Type} (document : Doc) (max_tokens : Nat)
    (chunk_type : ChunkType)
    (chunkerOut : ChunkType → Doc → Nat → Except String (List α))
    (contextualize : α → String) (countTokens : String → Nat)
    (tStart tEnd : ℚ) : ApiResponse :=
  match _chunk_sync document max_tokens chunk_type chunkerOut contextualize countTokens with
  | .ok chunks =>
      { status := 0, message := some "Document chunked successfully",
        data := some (.dict [("chunks", .list (chunks.map chunkValue)),
                             ("total_chunks", .int chunks.length),
                             ("processing_time", .rat (tEnd - tStart))]) }
  | .error e =>
      { status := 4, message := some ("Failed to chunk document: " ++ e), data := none }

/-- `ConversionService.convert_and_chunk`: convert, pass a conversion failure
envelope through unchanged, otherwise read `conversion_result.data["document"]`
(a `KeyError` — an uncaught exception — when absent), chunk it, and build the
combined or partial envelope.  An escaping exception is the `Except.error`
case of the second component. -/
def convert_and_chunk {α : Type} (converter : Option Converter)
    (file_path : String) (max_tokens : Nat) (output_type : OutputType)
    (chunk_type : ChunkType) (engine : Converter → String → EngineResult)
    (chunkerOut : ChunkType → Doc → Nat → Except String (List α))
    (contextualize : α → String) (countTokens : String → Nat)
    (tConvStart tConvEnd tChunkStart tChunkEnd tStart tEnd : ℚ) :
    Option Converter × Except String ApiResponse :=
  let res := convert converter file_path output_type engine tConvStart tConvEnd
  (res.1,
    if res.2.status ≠ 0 then .ok res.2
    else do
      let docV ← requireKey res.2 "document"
      let document ← match docV with
        | .doc d => Except.ok d
        | _ => Except.error "TypeError: not a DoclingDocument"
      let chunk_result := chunk document max_tokens chunk_type chunkerOut
        contextualize countTokens tChunkStart tChunkEnd
      let contentV ← requireKey res.2 "content"
      let metadataV ← requireKey res.2 "metadata"
      if chunk_result.status ≠ 0 then
        Except.ok
          { status := chunk_result.status
            message := chunk_result.message
            data := some (.dict [
              ("conversion", .dict [("content", contentV), ("metadata", metadataV)]),
              ("chunks", .list []),
              ("total_chunks", .int 0),
              ("processing_time", .rat (tEnd - tStart))]) }
      else do
        let chunksV ← requireKey chunk_result "chunks"
        let totalV ← requireKey chunk_result "total_chunks"
        Except.ok
          { status := 0
            message := some "Document converted and chunked successfully"
            data := some (.dict [
              ("conversion", .dict [("content", contentV), ("metadata", metadataV)]),
              ("chunks", chunksV),
              ("total_chunks", totalV),
              ("processing_time", .rat (tEnd - tStart))]) })

/-- The post-processing of the `/api/v1/convert` route handler in
`app/routers/document.py`: on a success envelope it assigns
`result.data["processing_time"] = time.time() - start_time`, overwriting the
adapter's rounded value with the raw total elapsed time. -/
def routerAttachTime (result : ApiResponse) (reqStart reqEnd : ℚ) : ApiResponse :=
  if result.status = 0 then
    { result with
        data := result.data.map (fun v => dictSet v "processing_time" (.rat (reqEnd - reqStart))) }
  else result

/-- A concrete parsed document used by closed evaluations. -/
def sampleDoc : Doc :=
  { pages := none
    exportText := "text"
    exportHtml := "<p>text</p>"
    exportMarkdown := "# text" }

/-- C1: evaluation of `convert_and_chunk`.  First conjunct — whenever the
conversion step succeeds, the access `conversion_result.data["document"]`
raises `KeyError` (the success envelope of `convert` carries only `content`,
`processing_time` and `metadata`), so no envelope is returned at all, the
chunking step is never reached, and the documented partial-success envelope is
dead code.  Second conjunct — the true half of the claim: when conversion
fails, its failure envelope is returned unchanged. -/
theorem convert_and_chunk_evaluation {α : Type} (converter : Option Converter)
    (file_path : String) (max_tokens : Nat) (output_type : OutputType)
    (chunk_type : ChunkType) (d : Doc) (msg : String)
    (chunkerOut : ChunkType → Doc → Nat → Except String (List α))
    (contextualize : α → String) (countTokens : String → Nat)
    (t1 t2 t3 t4 t5 t6 : ℚ) :
    ((convert_and_chunk converter file_path max_tokens output_type chunk_type
        (fun _ _ => .ok d) chunkerOut contextualize countTokens t1 t2 t3 t4 t5 t6).2 =
      .error "KeyError: document")
    ∧ ((convert_and_chunk converter file_path max_tokens output_type chunk_type
        (fun _ _ => .exn msg) chunkerOut contextualize countTokens t1 t2 t3 t4 t5 t6).2 =
      .ok (convert converter file_path output_type (fun _ _ => .exn msg) t1 t2).2) := by
  constructor <;> rcases converter with _ | c <;> rfl

/-- C4 counterexample: converting a stored file named
`uploads/report_20250101_120000.PDF` reports `file_type = "PDF"` — the text
after the last dot taken verbatim — not the lower-cased `"pdf"` the claim
asserts. -/
theorem conversion_metadata_counterexample :
    (_convert_document_sync (some Converter.default)
        "uploads/report_20250101_120000.PDF" OutputType.markdown true
        (fun _ _ => EngineResult.ok sampleDoc) 0 0).2.metadata? =
      some { page_count := none, file_type := "PDF" }
    ∧ asciiLower "PDF" = "pdf"
    ∧ ("PDF" : String) ≠ "pdf" :=
  ⟨by decide, by decide, by decide⟩

/-- C4 amended: for every successful conversion the metadata carries the text
after the last `'.'` of the stored path verbatim (no lower-casing is applied),
and a page count that is the page-collection length, absent (null) exactly
when the document does not expose pagination. -/
theorem conversion_metadata_amended (c : Converter) (source : String)
    (output_type : OutputType) (d : Doc) (start finish : ℚ) :
    (_convert_document_sync (some c) source output_type true
        (fun _ _ => .ok d) start finish).2.metadata? =
      some { page_count := d.pages.map List.length
             file_type := pyLastDotComponent source } :=
  rfl

lemma twoDecimal_pyRound2 (q : ℚ) : twoDecimal (pyRound2 q) := by
  refine ⟨roundHalfEven (q * 100), ?_⟩
  unfold pyRound2
  rw [div_mul_cancel₀]
  norm_num

/-- C5 counterexample: with a total request wall-clock time of `1/3` seconds,
the `processing_time` delivered in the `/convert` payload is the raw `1/3 - 0`
— the route handler's overwrite — which has no two-decimal representation, so
the reported value is not rounded to two decimal places. -/
theorem processing_time_counterexample :
    payloadLookup
        (routerAttachTime
          (convert (some Converter.default) "a.txt" OutputType.markdown
            (fun _ _ => EngineResult.ok sampleDoc) 0 0).2 0 (1 / 3))
        "processing_time" = some (.rat (1 / 3 - 0))
    ∧ ((1 : ℚ) / 3 - 0 = 1 / 3)
    ∧ ¬ twoDecimal (1 / 3) := by
  refine ⟨rfl, by norm_num, ?_⟩
  rintro ⟨n, hn⟩
  have h : (100 : ℚ) = 3 * (n : ℚ) := by
    calc (100 : ℚ) = 3 * (1 / 3 * 100) := by norm_num
      _ = 3 * (n : ℚ) := by rw [hn]
  have h' : (100 : ℤ) = 3 * n := by exact_mod_cast h
  omega

/-- C5 amended: the sync conversion routine does round its recorded
`processing_time` to two decimal places, but on a success envelope the route
handler overwrites `data["processing_time"]` with the raw total elapsed time
`reqEnd - reqStart`, so the value delivered to the client is the unrounded
total. -/
theorem processing_time_overwritten (converter : Option Converter)
    (src : String) (ot : OutputType) (d : Doc) (t0 t1 r0 r1 : ℚ) :
    twoDecimal ((_convert_document_sync converter src ot true
        (fun _ _ => .ok d) t0 t1).2.processingTime)
    ∧ payloadLookup
        (routerAttachTime (convert converter src ot (fun _ _ => .ok d) t0 t1).2 r0 r1)
        "processing_time" = some (.rat (r1 - r0)) := by
  constructor
  · rcases converter with _ | c
    · exact twoDecimal_pyRound2 _
    · exact twoDecimal_pyRound2 _
  · rcases converter with _ | c <;> rfl

/-- C7: whenever `_chunk_sync` succeeds, the produced `chunk_id`s are exactly
`0, 1, …, N-1` in the order the strategy's iterator yields the chunks —
contiguous, no gaps, no repeats, for any strategy and any `N ≥ 0`. -/
theorem chunk_ids_contiguous {α : Type} (document : Doc) (max_tokens : Nat)
    (chunk_type : ChunkType)
    (chunkerOut : ChunkType → Doc → Nat → Except String (List α))
    (contextualize : α → String) (countTokens : String → Nat)
    (chunks : List ChunkRec)
    (h : _chunk_sync document max_tokens chunk_type chunkerOut contextualize countTokens =
      .ok chunks) :
    chunks.map (fun c => c.chunk_id) = List.range chunks.length := by
  unfold _chunk_sync at h
  rcases hres : chunkerOut chunk_type document max_tokens with e | raws
  · rw [hres] at h; cases h
  · rw [hres] at h
    injection h with h
    subst h
    rw [List.map_map, List.length_map, List.enum_length]
    exact Eq.trans
      (congrArg (fun f => List.map f raws.enum) (funext fun p => rfl))
      (List.enum_map_fst raws)

theorem chunk_ids_contiguous_witness :
    ([⟨0, "x", 1, "x"⟩, ⟨1, "x", 1, "x"⟩] : List ChunkRec).map (fun c => c.chunk_id)
      = List.range ([⟨0, "x", 1, "x"⟩, ⟨1, "x", 1, "x"⟩] : List ChunkRec).length :=
  chunk_ids_contiguous sampleDoc 512 ChunkType.hybrid
    (fun _ _ _ => Except.ok [(), ()]) (fun _ => "x") (fun _ => 1) _ rfl

/-! ## Concurrent reconfiguration of the shared engine

`initialize_converter` holds no lock: `_init` runs on a thread-pool worker and
performs `self.converter = create_document_converter(enable_ocr, ocr_langs)`.
Under CPython the right-hand side is evaluated fully before the single
reference store, and a conversion reads `self.converter` with a single load,
so an interleaving of two requests is a sequence of atomic installs and reads
over the shared `converter` field.  `RaceState.observed` records, per request,
the engine its conversion read (`none` while it has not converted yet). -/

/-- The per-request OCR options of claim C9. -/
structure OcrOpts where
  enable_ocr : Bool
  ocr_langs : List String
deriving DecidableEq, Repr

/-- The engine a request's `_init` builds from its own options. -/
def engineFor (o : OcrOpts) : Converter :=
  create_document_converter o.enable_ocr (some o.ocr_langs)

/-- Atomic actions of two concurrent requests against one adapter instance:
completing one's own `self.converter = create_document_converter(...)` store,
or reading `self.converter` to perform one's conversion. -/
inductive RaceAction where
  | installOwn (who : Fin 2)
  | useConverter (who : Fin 2)

/-- Shared adapter state plus what each request's conversion observed. -/
structure RaceState where
  converter : Option Converter
  observed : Fin 2 → Option (Option Converter)

/-- One atomic step of the interleaving. -/
def raceStep (opts : Fin 2 → OcrOpts) (s : RaceState) (a : RaceAction) : RaceState :=
  match a with
  | .installOwn w => { s with converter := some (engineFor (opts w)) }
  | .useConverter w =>
      { s with observed := Function.update s.observed w (some s.converter) }

/-- Run an interleaving from a given state. -/
def raceRun (opts : Fin 2 → OcrOpts) (s : RaceState) (tr : List RaceAction) :
    RaceState :=
  tr.foldl (raceStep opts) s

/-- Fresh adapter: no engine installed, no conversion performed. -/
def raceInit : RaceState := { converter := none, observed := fun _ => none }

/-- Request 0: OCR on, Indonesian; request 1: OCR off, English. -/
def raceOpts : Fin 2 → OcrOpts :=
  fun w => if w = 0 then ⟨true, ["id"]⟩ else ⟨false, ["en"]⟩

/-- The interleaving: request 0 reconfigures, request 1 reconfigures, then
request 0 converts. -/
def raceTrace : List RaceAction :=
  [.installOwn 0, .installOwn 1, .useConverter 0]

/-- All states reachable from a fresh adapter hold either no engine or some
request's fully-configured engine, and every recorded observation does too. -/
def raceInv (opts : Fin 2 → OcrOpts) (s : RaceState) : Prop :=
  (s.converter = none ∨ ∃ w, s.converter = some (engineFor (opts w)))
  ∧ ∀ w v, s.observed w = some v →
      (v = none ∨ ∃ w', v = some (engineFor (opts w')))

lemma raceStep_inv (opts : Fin 2 → OcrOpts) (s : RaceState) (a : RaceAction)
    (h : raceInv opts s) : raceInv opts (raceStep opts s a) := by
  rcases a with w | w
  · exact ⟨Or.inr ⟨w, rfl⟩, fun w' v hv => h.2 w' v hv⟩
  · refine ⟨h.1, ?_⟩
    intro w' v hv
    simp only [raceStep] at hv
    by_cases hw : w' = w
    · subst hw
      rw [Function.update_same] at hv
      rcases hv with ⟨⟩
      exact h.1
    · rw [Function.update_noteq hw] at hv
      exact h.2 w' v hv

lemma raceRun_inv (opts : Fin 2 → OcrOpts) (tr : List RaceAction) (s : RaceState)
    (h : raceInv opts s) : raceInv opts (raceRun opts s tr) := by
  induction tr generalizing s with
  | nil => exact h
  | cons a tr ih => exact ih _ (raceStep_inv opts s a h)

/-- C9 counterexample: in the interleaving `raceTrace`, request 0's completed
conversion observed request 1's fully-configured engine — which is neither the
engine state from before request 0's own reconfiguration attempt (no engine)
nor the fully-completed result of request 0's own attempt (its own engine) —
so the claimed observation discipline is violated: reconfiguration and use are
not serialized per request. -/
theorem race_observes_other_config :
    (raceRun raceOpts raceInit raceTrace).observed 0 =
      some (some (engineFor (raceOpts 1)))
    ∧ (raceRun raceOpts raceInit [RaceAction.installOwn 0]).converter =
      some (engineFor (raceOpts 0))
    ∧ raceInit.converter = none
    ∧ some (engineFor (raceOpts 1)) ≠ raceInit.converter
    ∧ engineFor (raceOpts 1) ≠ engineFor (raceOpts 0) := by
  refine ⟨by decide, by decide, rfl, by decide, by decide⟩

/-- C9 amended: no completed conversion is ever computed with a mixture of two
requests' OCR settings — every observation is either the absent initial engine
or some single request's fully-applied configuration, never a partial write —
but a request may observe the other request's fully-completed configuration
rather than its own, because reconfiguration is not serialized with use. -/
theorem race_no_mixture (opts : Fin 2 → OcrOpts) (tr : List RaceAction)
    (w : Fin 2) (v : Option Converter)
    (h : (raceRun opts raceInit tr).observed w = some v) :
    v = none ∨ ∃ w' : Fin 2, v = some (engineFor (opts w')) := by
  refine (raceRun_inv opts tr raceInit ⟨Or.inl rfl, ?_⟩).2 w v h
  intro w' v' hv'
  cases hv'

theorem race_no_mixture_witness :
    (some (engineFor (raceOpts 0)) : Option Converter) = none ∨
      ∃ w' : Fin 2,
        (some (engineFor (raceOpts 0)) : Option Converter) =
          some (engineFor (raceOpts w')) :=
  race_no_mixture raceOpts [RaceAction.installOwn 0, RaceAction.useConverter 0] 0
    (some (engineFor (raceOpts 0))) (by decide)

end Dockling
